import Mathlib

/-!
Shallow embedding of `src/static/js/auth.js` (browser-side authentication
helpers) and verification of the frozen claims about it.

Strings manipulated by the JavaScript are modelled as Lean `String`s, or as
`List Char` where structural induction is needed (the cookie parser).  DOM
side effects are modelled explicitly: functions return records of the style /
text writes they perform, or lists of effects in the order the code performs
them.
-/

/-! ## JavaScript string primitives -/

/-- The whitespace characters stripped by JavaScript `String.prototype.trim`
(WhiteSpace and LineTerminator productions; the common members). -/
def isJSWhitespace (c : Char) : Bool :=
  c = ' ' || c = '\t' || c = '\n' || c = '\r' || c = '\x0b' || c = '\x0c' ||
  c = ' ' || c = '﻿'

/-- JavaScript `trim` on a character list: drop whitespace from both ends. -/
def trimL (l : List Char) : List Char :=
  ((l.dropWhile isJSWhitespace).reverse.dropWhile isJSWhitespace).reverse

/-- JavaScript `trim` on a `String`. -/
def trimStr (s : String) : String :=
  String.mk (trimL s.data)

/-- JavaScript `String.prototype.split` with a single-character separator:
`"".split(sep)` is `[""]`, separators at the ends produce empty segments. -/
def splitOnChar (sep : Char) : List Char → List (List Char)
  | [] => [[]]
  | c :: cs =>
    let r := splitOnChar sep cs
    if c = sep then [] :: r
    else (c :: r.headD []) :: r.tail

/-! ## StrengthScorer (`checkPasswordStrength`, lines 4-56) -/

/-- Regex test `/[a-z]/.test(password)`. -/
def hasLowercase (p : String) : Bool :=
  p.data.any (fun c => 'a' ≤ c && c ≤ 'z')

/-- Regex test `/[A-Z]/.test(password)`. -/
def hasUppercase (p : String) : Bool :=
  p.data.any (fun c => 'A' ≤ c && c ≤ 'Z')

/-- Regex test `/[0-9]/.test(password)`. -/
def hasDigit (p : String) : Bool :=
  p.data.any (fun c => '0' ≤ c && c ≤ '9')

/-- Regex test `/[^A-Za-z0-9]/.test(password)`. -/
def hasSpecial (p : String) : Bool :=
  p.data.any (fun c =>
    !(('a' ≤ c && c ≤ 'z') || ('A' ≤ c && c ≤ 'Z') || ('0' ≤ c && c ≤ '9')))

/-- One conditional `strength++` step. -/
def bumpIf (c : Prop) [Decidable c] (s : Nat) : Nat :=
  if c then s + 1 else s

/-- The sequential strength accumulation of lines 17-30: start at 0 and
increment once for each satisfied check, in source order. -/
def passwordScore (p : String) : Nat :=
  bumpIf (hasSpecial p)
    (bumpIf (hasDigit p)
      (bumpIf (hasUppercase p)
        (bumpIf (hasLowercase p)
          (bumpIf (p.length ≥ 12)
            (bumpIf (p.length ≥ 8) 0)))))

/-- The writes `checkPasswordStrength` performs on the strength meter:
`strengthFill.style.width`, `strengthFill.style.backgroundColor`,
`strengthText.textContent`, and (non-empty path only)
`strengthText.style.color`. -/
structure StrengthUI where
  fillWidth : String
  fillColor : String
  labelText : String
  labelColor : Option String
deriving DecidableEq, Repr

def weakLabel : String := "ضعیف"

def mediumLabel : String := "متوسط"

def strongLabel : String := "قوی"

/-- `checkPasswordStrength` (lines 4-56).  An empty (falsy) password resets
the meter and bypasses scoring; otherwise the score is mapped through the
`switch (true)` ladder, first match winning in ascending order. -/
def checkPasswordStrength (p : String) : StrengthUI :=
  if p = "" then ⟨"0%", "#e9ecef", "", none⟩
  else
    let strength := passwordScore p
    if strength ≤ 2 then ⟨"33%", "#dc3545", weakLabel, some "#dc3545"⟩
    else if strength ≤ 4 then ⟨"66%", "#ffc107", mediumLabel, some "#ffc107"⟩
    else ⟨"100%", "#198754", strongLabel, some "#198754"⟩

/-- Number of character classes (lower, upper, digit, other) present. -/
def classCount (p : String) : Nat :=
  (if hasLowercase p then 1 else 0) + (if hasUppercase p then 1 else 0) +
  (if hasDigit p then 1 else 0) + (if hasSpecial p then 1 else 0)

/-! ## Helper lemmas about the score -/

theorem bumpIf_eq (c : Prop) [Decidable c] (s : Nat) :
    bumpIf c s = s + (if c then 1 else 0) := by
  by_cases hc : c <;> simp [bumpIf, hc]

theorem passwordScore_eq (p : String) :
    passwordScore p =
      (if p.length ≥ 8 then 1 else 0) + (if p.length ≥ 12 then 1 else 0) +
      (if hasLowercase p then 1 else 0) + (if hasUppercase p then 1 else 0) +
      (if hasDigit p then 1 else 0) + (if hasSpecial p then 1 else 0) := by
  simp only [passwordScore, bumpIf_eq]
  omega

/-! ## Claims C1 and C2 -/

/-- C1: for every password string, the score accumulated by
`checkPasswordStrength` equals the sum of one point per satisfied criterion —
length ≥ 8, length ≥ 12 (cumulative), a lowercase letter present, an
uppercase letter present, a digit present, a character outside letters/digits
present — and never exceeds 6. -/
theorem passwordScore_additive_and_le_six (p : String) :
    passwordScore p =
      (if p.length ≥ 8 then 1 else 0) + (if p.length ≥ 12 then 1 else 0) +
      (if ∃ c ∈ p.data, 'a' ≤ c ∧ c ≤ 'z' then 1 else 0) +
      (if ∃ c ∈ p.data, 'A' ≤ c ∧ c ≤ 'Z' then 1 else 0) +
      (if ∃ c ∈ p.data, '0' ≤ c ∧ c ≤ '9' then 1 else 0) +
      (if ∃ c ∈ p.data,
          ¬(('a' ≤ c ∧ c ≤ 'z') ∨ ('A' ≤ c ∧ c ≤ 'Z') ∨ ('0' ≤ c ∧ c ≤ '9'))
        then 1 else 0) ∧
    passwordScore p ≤ 6 := by
  have hl : hasLowercase p = true ↔ ∃ c ∈ p.data, 'a' ≤ c ∧ c ≤ 'z' := by
    simp [hasLowercase, List.any_eq_true]
  have hu : hasUppercase p = true ↔ ∃ c ∈ p.data, 'A' ≤ c ∧ c ≤ 'Z' := by
    simp [hasUppercase, List.any_eq_true]
  have hd : hasDigit p = true ↔ ∃ c ∈ p.data, '0' ≤ c ∧ c ≤ '9' := by
    simp [hasDigit, List.any_eq_true]
  have hs : hasSpecial p = true ↔
      ∃ c ∈ p.data,
        ¬(('a' ≤ c ∧ c ≤ 'z') ∨ ('A' ≤ c ∧ c ≤ 'Z') ∨ ('0' ≤ c ∧ c ≤ '9')) := by
    simp only [hasSpecial, List.any_eq_true]
    refine exists_congr fun c => and_congr_right fun _ => ?_
    simp [not_or, imp_iff_not_or, not_le, and_assoc]
  constructor
  · simp only [← hl, ← hu, ← hd, ← hs]
    simp only [passwordScore, bumpIf_eq]
    split_ifs <;> omega
  · simp only [passwordScore, bumpIf_eq]
    split_ifs <;> omega

/-- C2: for every non-empty password the tier is chosen by ascending score
thresholds with first match winning (≤ 2 weak / 33% / #dc3545, ≤ 4 medium /
66% / #ffc107, otherwise strong / 100% / #198754); every password of length
≥ 12 containing lower, upper, digit and symbol scores 6 and renders strong,
and every password of length < 8 with a single character class renders
weak. -/
theorem checkPasswordStrength_tiers (p : String) (hne : p ≠ "") :
    (passwordScore p ≤ 2 →
      checkPasswordStrength p = ⟨"33%", "#dc3545", weakLabel, some "#dc3545"⟩) ∧
    (2 < passwordScore p → passwordScore p ≤ 4 →
      checkPasswordStrength p = ⟨"66%", "#ffc107", mediumLabel, some "#ffc107"⟩) ∧
    (4 < passwordScore p →
      checkPasswordStrength p = ⟨"100%", "#198754", strongLabel, some "#198754"⟩) ∧
    (p.length ≥ 12 → hasLowercase p = true → hasUppercase p = true →
      hasDigit p = true → hasSpecial p = true →
      passwordScore p = 6 ∧
      checkPasswordStrength p = ⟨"100%", "#198754", strongLabel, some "#198754"⟩) ∧
    (p.length < 8 → classCount p = 1 →
      checkPasswordStrength p = ⟨"33%", "#dc3545", weakLabel, some "#dc3545"⟩) := by
  refine ⟨?_, ?_, ?_, ?_, ?_⟩
  · intro h
    simp [checkPasswordStrength, hne, h]
  · intro h1 h2
    simp [checkPasswordStrength, hne, h2, show ¬passwordScore p ≤ 2 by omega]
  · intro h
    simp [checkPasswordStrength, hne, show ¬passwordScore p ≤ 2 by omega,
      show ¬passwordScore p ≤ 4 by omega]
  · intro h12 hlo hup hdg hsp
    have hsc : passwordScore p = 6 := by
      rw [passwordScore_eq]
      simp [hlo, hup, hdg, hsp, h12, show p.length ≥ 8 by omega]
    exact ⟨hsc, by
      simp [checkPasswordStrength, hne, hsc]⟩
  · intro hlen hcc
    have hsc : passwordScore p ≤ 2 := by
      rw [passwordScore_eq]
      unfold classCount at hcc
      split_ifs at hcc ⊢ <;> omega
    simp [checkPasswordStrength, hne, hsc]

/-- Witness for C2 at the password "Aa1!abcdefgh": length 12 with all four
character classes, so the score is 6 and the rendered tier is strong. -/
theorem checkPasswordStrength_tiers_witness :
    checkPasswordStrength "Aa1!abcdefgh" =
      ⟨"100%", "#198754", strongLabel, some "#198754"⟩ :=
  ((checkPasswordStrength_tiers "Aa1!abcdefgh" (by decide)).2.2.2.1
    (by decide) (by decide) (by decide) (by decide) (by decide)).2

/-! ## Countdown (`startCountdown`, lines 82-107) -/

/-- JavaScript `String.prototype.padStart`: pad on the left up to the target
length; a string already long enough is returned unchanged. -/
def padStart (s : String) (n : Nat) (c : Char) : String :=
  if n ≤ s.length then s else String.mk (List.replicate (n - s.length) c) ++ s

/-- The template literal of line 90: minutes via `Math.floor(remaining / 60)`
(floor division), seconds via JavaScript `%` (truncating remainder),
zero-padded to two digits. -/
def countdownRender (remaining : Int) : String :=
  toString (Int.fdiv remaining 60) ++ ":" ++
    padStart (toString (Int.tmod remaining 60)) 2 '0'

def expiredLabel : String := "منقضی شد"

def resendLabel : String := "ارسال مجدد"

/-- The `.resend-btn` element, when present on the page. -/
structure ResendBtn where
  disabled : Bool
  text : String
deriving DecidableEq, Repr

/-- State owned by one `startCountdown` timer: the mutable `remaining`
counter, the display element's text and color, whether `clearInterval` has
run, and the optional resend button. -/
structure CountdownState where
  remaining : Int
  display : String
  displayColor : String
  cleared : Bool
  resend : Option ResendBtn
deriving DecidableEq, Repr

/-- One interval callback (lines 86-106): if the interval was cleared the
callback no longer runs; otherwise render the current remaining value, and
when `remaining <= 0` clear the interval, switch the display to the expired
label in alert color and re-enable the resend button (if present); finally
decrement `remaining`.  The second component lists the `textContent` writes
performed by the callback, in order. -/
def countdownTick (st : CountdownState) : CountdownState × List String :=
  if st.cleared then (st, [])
  else
    let rendered := countdownRender st.remaining
    if st.remaining ≤ 0 then
      ({ st with
          remaining := st.remaining - 1
          display := expiredLabel
          displayColor := "#dc3545"
          cleared := true
          resend := st.resend.map fun _ => ⟨false, resendLabel⟩ },
        [rendered, expiredLabel])
    else
      ({ st with remaining := st.remaining - 1, display := rendered },
        [rendered])

/-- The closure state created by `startCountdown(seconds, ...)` before the
first tick; the display element's prior content is abstracted as empty. -/
def startCountdownState (seconds : Int) (resend : Option ResendBtn) :
    CountdownState :=
  { remaining := seconds, display := "", displayColor := "", cleared := false,
    resend := resend }

/-- The state after `n` interval callbacks. -/
def countdownStateAfter (st : CountdownState) : Nat → CountdownState
  | 0 => st
  | n + 1 => (countdownTick (countdownStateAfter st n)).1

/-- The display writes performed by the `(n+1)`-st interval callback (ticks
are indexed from 0). -/
def countdownWrites (st : CountdownState) (n : Nat) : List String :=
  (countdownTick (countdownStateAfter st n)).2

theorem countdownTick_cleared (st : CountdownState) (h : st.cleared = true) :
    countdownTick st = (st, []) := by
  simp [countdownTick, h]

/-! ## Claims C3 and C4 -/

/-- Counterexample to C3: in the 5-second run, the tick that writes "0:00"
(tick index 5) also writes the expired label immediately afterwards, within
the same callback, and the following tick performs no write at all — so the
expired label does not appear one tick after "0:00" is displayed. -/
theorem countdown_expired_same_tick_cex :
    countdownWrites (startCountdownState 5 none) 5 = ["0:00", expiredLabel] ∧
    countdownWrites (startCountdownState 5 none) 6 = [] := by
  constructor <;> rfl

/-- C3 amended: each tick renders the current remaining value before
decrementing it; but the expired label appears within the same tick as
"0:00": the tick observing `remaining <= 0` first writes the rendered
"0:00" and then immediately overwrites it with the expired label and clears
the interval, while a tick observing a positive remaining only renders it. -/
theorem countdown_render_before_decrement (st : CountdownState)
    (h : st.cleared = false) :
    (countdownTick st).2.headD "" = countdownRender st.remaining ∧
    (countdownTick st).1.remaining = st.remaining - 1 ∧
    (st.remaining ≤ 0 →
      (countdownTick st).2 = [countdownRender st.remaining, expiredLabel] ∧
      (countdownTick st).1.cleared = true ∧
      (countdownTick st).1.display = expiredLabel) ∧
    (0 < st.remaining →
      (countdownTick st).2 = [countdownRender st.remaining] ∧
      (countdownTick st).1.cleared = false ∧
      (countdownTick st).1.display = countdownRender st.remaining) := by
  by_cases hr : st.remaining ≤ 0 <;>
    simp [countdownTick, h, hr]

/-- Witness for the amended C3 at a just-expired state: the tick writes
"0:00" then the expired label and clears the interval. -/
theorem countdown_render_before_decrement_witness :
    (countdownTick (startCountdownState 0 none)).2 =
      [countdownRender 0, expiredLabel] ∧
    (countdownTick (startCountdownState 0 none)).1.cleared = true ∧
    (countdownTick (startCountdownState 0 none)).1.display = expiredLabel :=
  (countdown_render_before_decrement (startCountdownState 0 none)
    (by decide)).2.2.1 (by decide)

/-- C4: a countdown started with 5 seconds writes "0:05", "0:04", "0:03",
"0:02", "0:01" on its first five ticks, then on the next tick writes "0:00"
followed by the expired label, clears its interval, re-enables the resend
button with the updated text, and the display stays on the expired label on
all later observations. -/
theorem countdown_five_run (d : Bool) (t : String) :
    countdownWrites (startCountdownState 5 (some ⟨d, t⟩)) 0 = ["0:05"] ∧
    countdownWrites (startCountdownState 5 (some ⟨d, t⟩)) 1 = ["0:04"] ∧
    countdownWrites (startCountdownState 5 (some ⟨d, t⟩)) 2 = ["0:03"] ∧
    countdownWrites (startCountdownState 5 (some ⟨d, t⟩)) 3 = ["0:02"] ∧
    countdownWrites (startCountdownState 5 (some ⟨d, t⟩)) 4 = ["0:01"] ∧
    countdownWrites (startCountdownState 5 (some ⟨d, t⟩)) 5 =
      ["0:00", expiredLabel] ∧
    (countdownStateAfter (startCountdownState 5 (some ⟨d, t⟩)) 6).cleared =
      true ∧
    (countdownStateAfter (startCountdownState 5 (some ⟨d, t⟩)) 6).display =
      expiredLabel ∧
    (countdownStateAfter (startCountdownState 5 (some ⟨d, t⟩)) 6).resend =
      some ⟨false, resendLabel⟩ ∧
    ∀ k, (countdownStateAfter (startCountdownState 5 (some ⟨d, t⟩))
      (6 + k)).display = expiredLabel := by
  have h6 : (countdownStateAfter (startCountdownState 5 (some ⟨d, t⟩))
      6).cleared = true := rfl
  have hstable : ∀ k,
      countdownStateAfter (startCountdownState 5 (some ⟨d, t⟩)) (6 + k) =
        countdownStateAfter (startCountdownState 5 (some ⟨d, t⟩)) 6 := by
    intro k
    induction k with
    | zero => rfl
    | succ k ih =>
      show (countdownTick (countdownStateAfter
        (startCountdownState 5 (some ⟨d, t⟩)) (6 + k))).1 = _
      rw [ih, countdownTick_cleared _ h6]
  refine ⟨rfl, rfl, rfl, rfl, rfl, rfl, h6, rfl, rfl, ?_⟩
  intro k
  rw [hstable k]
  rfl

/-! ## FormGuard (`validateForm`, lines 110-125) -/

/-- A form input as `validateForm` sees it: its value, whether it carries the
`required` attribute, and whether its class list currently contains the
`is-invalid` marker. -/
structure FormField where
  value : String
  required : Bool
  invalid : Bool
deriving DecidableEq, Repr

/-- The per-input body of the `forEach` loop (lines 115-122), applied to the
inputs selected by `[required]`: a blank (whitespace-trimmed) value adds the
invalid marker, a non-blank value removes it; non-required inputs are not
selected and stay untouched. -/
def validateField (f : FormField) : FormField :=
  if f.required then
    if trimStr f.value = "" then { f with invalid := true }
    else { f with invalid := false }
  else f

/-- `validateForm` (lines 110-125): update every required input's marker and
return `isValid`, which starts `true` and is set `false` by every required
input whose trimmed value is empty. -/
def validateForm (fields : List FormField) : List FormField × Bool :=
  (fields.map validateField,
    fields.all fun f => !f.required || !(trimStr f.value == ""))

/-! ## Claim C8 -/

/-- C8: `validateForm` returns `true` iff every required field is non-blank
after trimming; every blank required field gets the invalid marker, every
non-blank required field gets it removed, non-required fields are untouched;
and on a form with one blank and one filled required field it returns
`false` and flags only the blank one. -/
theorem validateForm_spec (fields : List FormField) :
    ((validateForm fields).2 = true ↔
      ∀ f ∈ fields, f.required = true → trimStr f.value ≠ "") ∧
    (validateForm fields).1.length = fields.length ∧
    (∀ i (h1 : i < fields.length) (h2 : i < (validateForm fields).1.length),
      (fields.get ⟨i, h1⟩).required = true →
      ((validateForm fields).1.get ⟨i, h2⟩).invalid =
        decide (trimStr (fields.get ⟨i, h1⟩).value = "")) ∧
    (∀ i (h1 : i < fields.length) (h2 : i < (validateForm fields).1.length),
      (fields.get ⟨i, h1⟩).required = false →
      (validateForm fields).1.get ⟨i, h2⟩ = fields.get ⟨i, h1⟩) ∧
    validateForm [⟨"", true, false⟩, ⟨"x", true, false⟩] =
      ([⟨"", true, true⟩, ⟨"x", true, false⟩], false) := by
  refine ⟨?_, ?_, ?_, ?_, ?_⟩
  · simp only [validateForm, List.all_eq_true, Bool.or_eq_true,
      Bool.not_eq_true', beq_iff_eq, beq_eq_false_iff_ne, ne_eq]
    constructor
    · intro h f hf hreq
      rcases h f hf with h1 | h1
      · simp [hreq] at h1
      · exact h1
    · intro h f hf
      by_cases hr : f.required = true
      · exact Or.inr (h f hf hr)
      · exact Or.inl (by simpa using hr)
  · simp [validateForm]
  · intro i h1 h2 hreq
    simp only [List.get_eq_getElem] at hreq
    simp only [validateForm, List.get_eq_getElem, List.getElem_map]
    by_cases ht : trimStr fields[i].value = "" <;>
      simp [validateField, hreq, ht]
  · intro i h1 h2 hreq
    simp only [List.get_eq_getElem] at hreq
    simp only [validateForm, List.get_eq_getElem, List.getElem_map]
    simp [validateField, hreq]
  · decide

/-- Witness for C8 on the one-field form holding a blank required field: the
overall result is `false` and the field is flagged. -/
theorem validateForm_spec_witness :
    (validateForm [⟨" ", true, false⟩]).2 = false ∧
    ((validateForm [(⟨" ", true, false⟩ : FormField)]).1.get
        ⟨0, by decide⟩).invalid = decide (trimStr " " = "") := by
  constructor
  · cases hb : (validateForm [⟨" ", true, false⟩]).2 with
    | false => rfl
    | true =>
      exact absurd (by decide : trimStr " " = "")
        (((validateForm_spec [⟨" ", true, false⟩]).1.mp hb)
          ⟨" ", true, false⟩ (by simp) rfl)
  · exact (validateForm_spec [⟨" ", true, false⟩]).2.2.1 0 (by decide)
      (by decide) rfl

/-! ## Phone formatting (`formatPhoneNumber`, lines 179-195) -/

/-- Lines 180-188 on the character list: `phone.replace(/\D/g, "")` keeps
only ASCII digits, then `substring` drops a leading "98" country prefix and
then a leading "0" trunk prefix. -/
def normalizePhoneL (l : List Char) : List Char :=
  let digits := l.filter fun c => '0' ≤ c && c ≤ '9'
  let noCountry :=
    if ['9', '8'].isPrefixOf digits then digits.drop 2 else digits
  if ['0'].isPrefixOf noCountry then noCountry.drop 1 else noCountry

/-- The digit-stripped, prefix-stripped string of lines 180-188. -/
def normalizePhone (s : String) : String :=
  String.mk (normalizePhoneL s.data)

/-- `formatPhoneNumber` (lines 179-195): after normalisation, a 10-digit
number is rendered as `0XXX XXX XXXX` (via `substring(0,3)`,
`substring(3,6)`, `substring(6,10)`); anything else returns the mutated
local variable `phone` — the digit-stripped, prefix-stripped string — not
the original input. -/
def formatPhoneNumber (s : String) : String :=
  let p := normalizePhoneL s.data
  if p.length = 10 then
    String.mk (['0'] ++ p.take 3 ++ [' '] ++ (p.drop 3).take 3 ++ [' '] ++
      (p.drop 6).take 4)
  else String.mk p

/-! ## Claim C7 -/

/-- Counterexample to C7: on input "a1" the digits do not number 10, yet the
function returns the stripped string "1", not the input "a1" unformatted. -/
theorem formatPhoneNumber_not_input_cex :
    formatPhoneNumber "a1" = "1" ∧ formatPhoneNumber "a1" ≠ "a1" := by
  constructor <;> decide

/-- C7 amended: both documented examples format to "0912 345 6789", and for
every input whose digits, after stripping non-digits and the "98" and "0"
prefixes, do not number exactly 10, the function returns that stripped
digit string (not the original input). -/
theorem formatPhoneNumber_spec :
    formatPhoneNumber "989123456789" = "0912 345 6789" ∧
    formatPhoneNumber "09123456789" = "0912 345 6789" ∧
    ∀ s, (normalizePhone s).length ≠ 10 →
      formatPhoneNumber s = normalizePhone s := by
  refine ⟨by decide, by decide, ?_⟩
  intro s h
  have h2 : (normalizePhoneL s.data).length ≠ 10 := h
  simp [formatPhoneNumber, normalizePhone, h2]

/-- Witness for the amended C7 at input "123": three digits survive, so the
stripped string "123" itself is returned. -/
theorem formatPhoneNumber_spec_witness :
    formatPhoneNumber "123" = normalizePhone "123" :=
  formatPhoneNumber_spec.2.2 "123" (by decide)

/-! ## Countdown seed (`DOMContentLoaded` handler, lines 283-287) -/

/-- Value of a character as a digit in radices up to 16, by code point:
48-57 are `0`-`9`, 97-102 are `a`-`f`, 65-70 are `A`-`F`. -/
def digitCharValue (c : Char) : Option Nat :=
  let n := c.toNat
  if 48 ≤ n ∧ n ≤ 57 then some (n - 48)
  else if 97 ≤ n ∧ n ≤ 102 then some (n - 87)
  else if 65 ≤ n ∧ n ≤ 70 then some (n - 55)
  else none

/-- Digit value bounded by the active radix. -/
def digitVal (radix : Nat) (c : Char) : Option Nat :=
  match digitCharValue c with
  | some v => if v < radix then some v else none
  | none => none

/-- JavaScript `parseInt(string)` with no radix argument: skip leading
whitespace, read an optional sign, detect a "0x"/"0X" prefix (radix 16,
otherwise 10), then take the longest leading run of radix digits; `none`
models the NaN result produced when that run is empty. -/
def parseIntJS (s : String) : Option Int :=
  let l := s.data.dropWhile isJSWhitespace
  let signAndRest : Int × List Char :=
    match l with
    | '-' :: rest => (-1, rest)
    | '+' :: rest => (1, rest)
    | _ => (1, l)
  let radixAndRest : Nat × List Char :=
    match signAndRest.2 with
    | '0' :: 'x' :: rest => (16, rest)
    | '0' :: 'X' :: rest => (16, rest)
    | _ => (10, signAndRest.2)
  let ds := radixAndRest.2.takeWhile fun c => (digitVal radixAndRest.1 c).isSome
  if ds.isEmpty then none
  else
    some (signAndRest.1 *
      Int.ofNat (ds.foldl
        (fun acc c => acc * radixAndRest.1 + (digitVal radixAndRest.1 c).getD 0)
        0))

/-- Line 285, `parseInt(timerElement.dataset.seconds || 300)`: a missing
attribute (`undefined`) or an empty attribute string is falsy, so `||`
yields the number 300, which `parseInt` coerces to "300"; any other string
is passed to `parseInt` directly. -/
def countdownSeed (attr : Option String) : Option Int :=
  match attr with
  | none => parseIntJS "300"
  | some s => if s = "" then parseIntJS "300" else parseIntJS s

/-! ## Claim C9 -/

/-- Counterexample to C9: the attribute value "abc" is present but
unparseable, and the seed is NaN (modelled `none`), not the default 300. -/
theorem countdownSeed_unparseable_cex :
    countdownSeed (some "abc") = none ∧
    countdownSeed (some "abc") ≠ some 300 := by
  constructor <;> decide

/-- C9 amended: the seed defaults to 300 when the attribute is absent or the
empty string; a non-empty attribute is handed to `parseInt` unchanged, so an
unparseable non-empty value seeds NaN rather than 300. -/
theorem countdownSeed_spec :
    countdownSeed none = some 300 ∧
    countdownSeed (some "") = some 300 ∧
    countdownSeed (some "abc") = none ∧
    ∀ s, s ≠ "" → countdownSeed (some s) = parseIntJS s := by
  refine ⟨by decide, by decide, by decide, ?_⟩
  intro s h
  simp [countdownSeed, h]

/-- Witness for the amended C9 at the attribute value "42". -/
theorem countdownSeed_spec_witness :
    countdownSeed (some "42") = parseIntJS "42" :=
  countdownSeed_spec.2.2.2 "42" (by decide)

/-! ## Cookie token (`getToken`, lines 203-212) -/

/-- A JavaScript value as `getToken` can produce: `null` (loop exhausted),
`undefined` (destructuring found no second split component), or a string. -/
inductive JSVal where
  | null
  | undefined
  | str (s : List Char)
deriving DecidableEq, Repr

/-- The `name` component destructured from one cookie entry:
`cookie.trim().split('=')[0]`. -/
def cookieName (entry : List Char) : List Char :=
  (splitOnChar '=' (trimL entry)).headD []

/-- The loop of lines 205-210 over the `';'`-split cookie entries: trim the
entry, split on `'='`, destructure into `[name, value]`, and return `value`
on the first entry whose name is exactly `access_token`. -/
def cookieLookup : List (List Char) → JSVal
  | [] => .null
  | c :: rest =>
    let parts := splitOnChar '=' (trimL c)
    if parts.headD [] = "access_token".toList then
      match parts.tail.head? with
      | some v => .str v
      | none => .undefined
    else cookieLookup rest

/-- `getToken` (lines 203-212). -/
def getToken (cookie : String) : JSVal :=
  cookieLookup (splitOnChar ';' cookie.data)

/-- JavaScript falsiness of the values `getToken` can return (`!token`):
`null`, `undefined` and the empty string are falsy. -/
def jsFalsy : JSVal → Bool
  | .null => true
  | .undefined => true
  | .str s => s.isEmpty

/-- The string content of a `JSVal`, as interpolated into the Bearer header
(only reached on truthy values, hence on non-empty strings). -/
def jsValString : JSVal → List Char
  | .str s => s
  | _ => []

/-! ## AuthenticatedFetch (`makeAuthRequest`, lines 215-256) -/

/-- What the host returns for the single `fetch` call: either a thrown
network error, or a response with a status and a JSON body — `none` models
a body on which `response.json()` throws. -/
inductive FetchOutcome where
  | throws
  | response (status : Nat) (body : Option String)
deriving DecidableEq, Repr

/-- The observable side effects of `makeAuthRequest`, in execution order. -/
inductive Effect where
  | showLoading (msg : String)
  | fetchCall (url method authHeader : String) (body : Option String)
  | hideLoading
  | toast (msg ty : String)
  | consoleError
  | redirect (target : String)
deriving DecidableEq, Repr

def loadingMsg : String := "در حال ارسال درخواست..."

def serverErrorMsg : String := "خطا در ارتباط با سرور"

def reloginMsg : String := "لطفاً مجدداً وارد شوید"

def isFetchCall : Effect → Bool
  | .fetchCall _ _ _ _ => true
  | _ => false

/-- The `fetch` invocation of line 239: fixed `/api/v1` prefix, Bearer
header, and a JSON body attached only for POST/PUT (lines 233-235). -/
def authFetchEffect (url method : String) (data : Option String)
    (token : List Char) : Effect :=
  .fetchCall ("/api/v1" ++ url) method ("Bearer " ++ String.mk token)
    (if method = "POST" ∨ method = "PUT" then data else none)

/-- The `try` block of lines 237-249: show the loading overlay, fetch, hide
the overlay; a 401 status produces a warning toast, a redirect and `null`;
otherwise the parsed JSON body is returned.  `Except.error` marks the
positions where the JavaScript throws (the fetch itself, or
`response.json()`). -/
def authTryBlock (url method : String) (data : Option String)
    (token : List Char) (outcome : FetchOutcome) :
    List Effect × Except Unit (Option String) :=
  match outcome with
  | .throws =>
    ([.showLoading loadingMsg, authFetchEffect url method data token],
      .error ())
  | .response status body =>
    if status = 401 then
      ([.showLoading loadingMsg, authFetchEffect url method data token,
        .hideLoading, .toast reloginMsg "warning", .redirect "/login"],
        .ok none)
    else
      match body with
      | some b =>
        ([.showLoading loadingMsg, authFetchEffect url method data token,
          .hideLoading], .ok (some b))
      | none =>
        ([.showLoading loadingMsg, authFetchEffect url method data token,
          .hideLoading], .error ())

/-- `makeAuthRequest` (lines 215-256): a falsy token short-circuits with a
redirect and no further effect; otherwise the `try` block runs and the
`catch` of lines 250-255 converts any throw into hide-overlay, error toast,
console log and a `null` resolution.  The bare `return` and `return null`
are both modelled as `Except.ok none`; the function never resolves with
`Except.error`. -/
def makeAuthRequest (cookie url method : String) (data : Option String)
    (outcome : FetchOutcome) : List Effect × Except Unit (Option String) :=
  let token := getToken cookie
  if jsFalsy token then ([.redirect "/login"], .ok none)
  else
    match authTryBlock url method data (jsValString token) outcome with
    | (effs, .ok r) => (effs, .ok r)
    | (effs, .error _) =>
      (effs ++ [.hideLoading, .toast serverErrorMsg "error", .consoleError],
        .ok none)

def exceptResolved : Except Unit (Option String) → Bool
  | .ok _ => true
  | .error _ => false

/-! ## Claims C5 and C6 -/

/-- C5: whenever `getToken` yields no access token (`null` from an exhausted
loop, or `undefined` from a valueless entry), `makeAuthRequest` performs
zero fetch calls, never shows the loading overlay, redirects to the login
page, and resolves with no result. -/
theorem makeAuthRequest_no_token (cookie url method : String)
    (data : Option String) (outcome : FetchOutcome)
    (h : getToken cookie = .null ∨ getToken cookie = .undefined) :
    makeAuthRequest cookie url method data outcome =
      ([.redirect "/login"], .ok none) ∧
    (makeAuthRequest cookie url method data outcome).1.countP isFetchCall
      = 0 ∧
    (∀ m, Effect.showLoading m ∉
      (makeAuthRequest cookie url method data outcome).1) ∧
    Effect.redirect "/login" ∈
      (makeAuthRequest cookie url method data outcome).1 ∧
    (makeAuthRequest cookie url method data outcome).2 = .ok none := by
  have hf : jsFalsy (getToken cookie) = true := by
    rcases h with h | h <;> rw [h] <;> rfl
  have heq : makeAuthRequest cookie url method data outcome =
      ([.redirect "/login"], .ok none) := by
    simp [makeAuthRequest, hf]
  exact ⟨heq, by rw [heq]; rfl, fun m => by rw [heq]; simp,
    by rw [heq]; simp, by rw [heq]⟩

/-- Witness for C5 on the empty cookie string: `getToken ""` is `null` and
the call short-circuits into the login redirect. -/
theorem makeAuthRequest_no_token_witness :
    makeAuthRequest "" "/profile" "GET" none .throws =
      ([.redirect "/login"], .ok none) :=
  (makeAuthRequest_no_token "" "/profile" "GET" none .throws
    (Or.inl (by decide))).1

/-- C6: `makeAuthRequest` never propagates a throw (it always resolves); with
a token present, a 401 response yields a warning toast, a login redirect and
no result; a thrown fetch yields overlay dismissal, an error toast, a console
log and no result; a body whose JSON parse throws yields the same recovery
(after the overlay was already hidden once on line 240); and the resolution
carries a parsed body exactly on the non-401 success path. -/
theorem makeAuthRequest_error_handling (cookie url method : String)
    (data : Option String) (outcome : FetchOutcome) :
    (exceptResolved (makeAuthRequest cookie url method data outcome).2
      = true) ∧
    (∀ status body, jsFalsy (getToken cookie) = false →
      outcome = .response status body → status = 401 →
      makeAuthRequest cookie url method data outcome =
        ([.showLoading loadingMsg,
          authFetchEffect url method data (jsValString (getToken cookie)),
          .hideLoading, .toast reloginMsg "warning", .redirect "/login"],
          .ok none)) ∧
    (jsFalsy (getToken cookie) = false → outcome = .throws →
      makeAuthRequest cookie url method data outcome =
        ([.showLoading loadingMsg,
          authFetchEffect url method data (jsValString (getToken cookie)),
          .hideLoading, .toast serverErrorMsg "error", .consoleError],
          .ok none)) ∧
    (∀ status, jsFalsy (getToken cookie) = false →
      outcome = .response status none → status ≠ 401 →
      makeAuthRequest cookie url method data outcome =
        ([.showLoading loadingMsg,
          authFetchEffect url method data (jsValString (getToken cookie)),
          .hideLoading, .hideLoading, .toast serverErrorMsg "error",
          .consoleError], .ok none)) ∧
    (∀ status b, jsFalsy (getToken cookie) = false →
      outcome = .response status (some b) → status ≠ 401 →
      makeAuthRequest cookie url method data outcome =
        ([.showLoading loadingMsg,
          authFetchEffect url method data (jsValString (getToken cookie)),
          .hideLoading], .ok (some b))) ∧
    (∀ b, (makeAuthRequest cookie url method data outcome).2 = .ok (some b) →
      jsFalsy (getToken cookie) = false ∧
      ∃ status, status ≠ 401 ∧ outcome = .response status (some b)) := by
  refine ⟨?_, ?_, ?_, ?_, ?_, ?_⟩
  · by_cases hf : jsFalsy (getToken cookie)
    · simp [makeAuthRequest, hf, exceptResolved]
    · cases outcome with
      | throws => simp [makeAuthRequest, hf, authTryBlock, exceptResolved]
      | response status body =>
        by_cases h401 : status = 401
        · simp [makeAuthRequest, hf, authTryBlock, h401, exceptResolved]
        · cases body <;>
            simp [makeAuthRequest, hf, authTryBlock, h401, exceptResolved]
  · intro status body hf ho h401
    subst ho h401
    simp [makeAuthRequest, hf, authTryBlock]
  · intro hf ho
    subst ho
    simp [makeAuthRequest, hf, authTryBlock]
  · intro status hf ho h401
    subst ho
    simp [makeAuthRequest, hf, authTryBlock, h401]
  · intro status b hf ho h401
    subst ho
    simp [makeAuthRequest, hf, authTryBlock, h401]
  · intro b hres
    by_cases hf : jsFalsy (getToken cookie)
    · rw [show makeAuthRequest cookie url method data outcome =
          ([.redirect "/login"], .ok none) by simp [makeAuthRequest, hf]]
        at hres
      simp at hres
    · refine ⟨by simpa using hf, ?_⟩
      cases outcome with
      | throws =>
        rw [show makeAuthRequest cookie url method data .throws =
            ([.showLoading loadingMsg,
              authFetchEffect url method data (jsValString (getToken cookie)),
              .hideLoading, .toast serverErrorMsg "error", .consoleError],
              .ok none) by simp [makeAuthRequest, hf, authTryBlock]] at hres
        simp at hres
      | response status body =>
        by_cases h401 : status = 401
        · rw [show makeAuthRequest cookie url method data
              (.response status body) =
              ([.showLoading loadingMsg,
                authFetchEffect url method data
                  (jsValString (getToken cookie)),
                .hideLoading, .toast reloginMsg "warning",
                .redirect "/login"], .ok none) by
            simp [makeAuthRequest, hf, authTryBlock, h401]] at hres
          simp at hres
        · cases body with
          | none =>
            rw [show makeAuthRequest cookie url method data
                (.response status none) =
                ([.showLoading loadingMsg,
                  authFetchEffect url method data
                    (jsValString (getToken cookie)),
                  .hideLoading, .hideLoading, .toast serverErrorMsg "error",
                  .consoleError], .ok none) by
              simp [makeAuthRequest, hf, authTryBlock, h401]] at hres
            simp at hres
          | some b2 =>
            rw [show makeAuthRequest cookie url method data
                (.response status (some b2)) =
                ([.showLoading loadingMsg,
                  authFetchEffect url method data
                    (jsValString (getToken cookie)),
                  .hideLoading], .ok (some b2)) by
              simp [makeAuthRequest, hf, authTryBlock, h401]] at hres
            simp only [Except.ok.injEq, Option.some.injEq] at hres
            exact ⟨status, h401, by rw [hres]⟩

/-- Witness for C6 on the cookie "access_token=tok" and a 401 response: the
call resolves with no result after a warning toast and a login redirect. -/
theorem makeAuthRequest_error_handling_witness :
    makeAuthRequest "access_token=tok" "/me" "GET" none
      (.response 401 (some "{}")) =
      ([.showLoading loadingMsg,
        authFetchEffect "/me" "GET" none
          (jsValString (getToken "access_token=tok")),
        .hideLoading, .toast reloginMsg "warning", .redirect "/login"],
        .ok none) :=
  (makeAuthRequest_error_handling "access_token=tok" "/me" "GET" none
    (.response 401 (some "{}"))).2.1 401 (some "{}") (by decide) rfl rfl

/-! ## Helper lemmas for the cookie parser -/

/-- Joining cookie entries with the `';'` separator (how a cookie string is
assembled from its entries). -/
def joinWithChar (sep : Char) : List (List Char) → List Char
  | [] => []
  | [e] => e
  | e :: e2 :: rest => e ++ sep :: joinWithChar sep (e2 :: rest)

theorem splitOnChar_ne_nil (sep : Char) (l : List Char) :
    splitOnChar sep l ≠ [] := by
  cases l with
  | nil => simp [splitOnChar]
  | cons c cs => by_cases hc : c = sep <;> simp [splitOnChar, hc]

theorem splitOnChar_of_not_mem (sep : Char) (l : List Char) (h : sep ∉ l) :
    splitOnChar sep l = [l] := by
  induction l with
  | nil => rfl
  | cons c cs ih =>
    rw [List.mem_cons, not_or] at h
    simp [splitOnChar, Ne.symm h.1, ih h.2]

theorem splitOnChar_append (sep : Char) (a b : List Char) (h : sep ∉ a) :
    splitOnChar sep (a ++ sep :: b) = a :: splitOnChar sep b := by
  induction a with
  | nil => simp [splitOnChar]
  | cons c a ih =>
    rw [List.mem_cons, not_or] at h
    simp [splitOnChar, Ne.symm h.1, ih h.2]

theorem splitOnChar_joinWithChar (sep : Char) (es : List (List Char))
    (hne : es ≠ []) (h : ∀ e ∈ es, sep ∉ e) :
    splitOnChar sep (joinWithChar sep es) = es := by
  induction es with
  | nil => exact absurd rfl hne
  | cons e rest ih =>
    cases rest with
    | nil => exact splitOnChar_of_not_mem sep e (h e (by simp))
    | cons e2 tl =>
      rw [show joinWithChar sep (e :: e2 :: tl) =
          e ++ sep :: joinWithChar sep (e2 :: tl) from rfl]
      rw [splitOnChar_append sep e _ (h e (by simp))]
      rw [ih (by simp) (fun x hx => h x (by simp [hx]))]

theorem splitOnChar_headD (sep : Char) (l : List Char) :
    (splitOnChar sep l).headD [] = l.takeWhile fun c => c != sep := by
  induction l with
  | nil => rfl
  | cons c cs ih =>
    by_cases hc : c = sep
    · subst hc
      simp [splitOnChar, List.takeWhile_cons]
    · simp [splitOnChar, hc, List.takeWhile_cons]
      rw [← ih]
      cases splitOnChar sep cs <;> rfl

theorem head?_eq_headD (l : List (List Char)) (h : l ≠ []) :
    l.head? = some (l.headD []) := by
  cases l with
  | nil => exact absurd rfl h
  | cons a t => rfl

theorem cookieLookup_skip (pre rest : List (List Char))
    (h : ∀ e ∈ pre, cookieName e ≠ "access_token".toList) :
    cookieLookup (pre ++ rest) = cookieLookup rest := by
  induction pre with
  | nil => rfl
  | cons e pre ih =>
    have he : cookieName e ≠ "access_token".toList := h e (by simp)
    simp only [cookieName] at he
    rw [List.cons_append]
    simp only [cookieLookup]
    rw [if_neg he]
    exact ih fun x hx => h x (by simp [hx])

theorem cookieLookup_null (es : List (List Char))
    (h : ∀ e ∈ es, cookieName e ≠ "access_token".toList) :
    cookieLookup es = .null := by
  induction es with
  | nil => rfl
  | cons e es ih =>
    have he : cookieName e ≠ "access_token".toList := h e (by simp)
    simp only [cookieName] at he
    simp only [cookieLookup]
    rw [if_neg he]
    exact ih fun x hx => h x (by simp [hx])

/-! ## Claim C10 -/

/-- C10: for every cookie string assembled from entries none of which (before
the `access_token` one) is named `access_token`, whose `access_token` entry
trims to `access_token=` followed by a value `v`, `getToken` returns only the
portion of `v` before its first `'='` — a proper prefix whenever `v` itself
contains `'='` — and for every cookie string with no entry named exactly
`access_token` it returns `null`. -/
theorem getToken_spec :
    (∀ (pre post : List (List Char)) (entry v : List Char),
      (∀ e ∈ pre, cookieName e ≠ "access_token".toList) →
      (∀ e ∈ pre ++ entry :: post, ';' ∉ e) →
      trimL entry = "access_token=".toList ++ v →
      getToken (String.mk (joinWithChar ';' (pre ++ entry :: post))) =
        .str (v.takeWhile fun c => c != '=')) ∧
    (∀ v : List Char, '=' ∈ v → (v.takeWhile fun c => c != '=') ≠ v) ∧
    (∀ cookie : String,
      (∀ e ∈ splitOnChar ';' cookie.data,
        cookieName e ≠ "access_token".toList) →
      getToken cookie = .null) := by
  refine ⟨?_, ?_, ?_⟩
  · intro pre post entry v hname hsemi htrim
    show cookieLookup
      (splitOnChar ';' (joinWithChar ';' (pre ++ entry :: post))) = _
    rw [splitOnChar_joinWithChar ';' _ (by simp) hsemi]
    rw [cookieLookup_skip pre _ hname]
    have hsplit : splitOnChar '=' (trimL entry) =
        "access_token".toList :: splitOnChar '=' v := by
      rw [htrim]
      rw [show "access_token=".toList ++ v =
        "access_token".toList ++ '=' :: v from rfl]
      exact splitOnChar_append '=' _ v (by decide)
    simp only [cookieLookup, hsplit, List.headD_cons, List.tail_cons,
      if_true, eq_self_iff_true]
    rw [head?_eq_headD _ (splitOnChar_ne_nil '=' v), splitOnChar_headD]
  · intro v
    induction v with
    | nil =>
      intro hv
      simp at hv
    | cons c cs ih =>
      intro hv hcontra
      by_cases hc : c = '='
      · subst hc
        simp [List.takeWhile_cons] at hcontra
      · rw [List.mem_cons] at hv
        rcases hv with h1 | h1
        · exact hc h1.symm
        · exact ih h1 (by simpa [List.takeWhile_cons, hc] using hcontra)
  · intro cookie h
    exact cookieLookup_null _ h

/-- Witness for C10 on the cookie string "access_token=abc=def": the value
"abc=def" contains an `'='`, and `getToken` returns only "abc". -/
theorem getToken_spec_witness :
    getToken "access_token=abc=def" = .str "abc".toList :=
  getToken_spec.1 [] [] "access_token=abc=def".toList "abc=def".toList
    (by simp) (by decide) (by decide)
